import Mathlib

set_option maxRecDepth 100000

/-!
Shallow embedding of the two instructional notebooks of the
Python-Basics-Webinar repository:

* `introduction-to-numpy.ipynb` — a NumPy tutorial notebook; the only
  functions it defines are two Heaviside step implementations both named
  `Theta` (a scalar one and a vector-aware one) and the vectorized
  `Theta_vec = np.vectorize(Theta)`.
* `.ipynb_checkpoints/initial-python-tutorial-checkpoint.ipynb` — a base
  Python tutorial; the only functions it defines are `my_function`
  (identity) and `another_function` (f-string formatting with defaults).

Python scalar numbers appearing in the notebooks (ints and floats such as
`-1.2`, `2.6`) are modelled as rationals `ℚ`; Python ints as `ℤ`.
-/

namespace PyBasicsWebinar

/-- Python truthiness of a bool as a number, as used by `1 * (x >= 0)`:
`int(True) = 1`, `int(False) = 0`. -/
def pyBoolToInt (b : Bool) : ℤ := if b then 1 else 0

namespace ScalarImpl

/-- Scalar implementation of the Heaviside step function, from
`introduction-to-numpy.ipynb` (cell "def Theta(x)"):
`if x >= 0: return 1 else: return 0`. -/
def Theta (x : ℚ) : ℤ :=
  if x ≥ 0 then 1 else 0

end ScalarImpl

namespace VectorImpl

/-- Vector-aware implementation of the Heaviside step function, from
`introduction-to-numpy.ipynb`: `return 1 * (x >= 0)`, on a scalar input.
In Python, `x >= 0` is a bool and `1 * b` is its integer value. -/
def Theta (x : ℚ) : ℤ :=
  1 * pyBoolToInt (decide (x ≥ 0))

/-- The vector-aware `Theta` applied to a NumPy 1-D array (modelled as a
list): `x >= 0` compares elementwise, and `1 *` multiplies elementwise. -/
def ThetaOnList (v : List ℚ) : List ℤ :=
  v.map (fun x => 1 * pyBoolToInt (decide (x ≥ 0)))

end VectorImpl

/-- `np.vectorize f` applied to a 1-D array: elementwise application. -/
def npVectorize (f : ℚ → ℤ) (v : List ℚ) : List ℤ :=
  v.map f

/-- From `introduction-to-numpy.ipynb`: `Theta_vec = np.vectorize(Theta)`,
where `Theta` is still the scalar implementation at that point. -/
def Theta_vec (v : List ℚ) : List ℤ :=
  npVectorize ScalarImpl.Theta v

/-- Modelled from the spec: the Heaviside step function exactly as in the
standard documentation/tutorial the spec says the notebook reproduces
verbatim (step value 0 on negative inputs, 1 on nonnegative inputs,
heavy array work left to the library). The spec's words: the notebook is
"pass-through usage ... reproduced verbatim from their standard
documentation/tutorials". -/
def documentedHeaviside (x : ℚ) : ℤ :=
  if 0 ≤ x then 1 else 0

/-- NumPy's truthiness of a boolean array, as triggered by `if x >= 0:`
when `x` is an array: a one-element array yields its element, any other
size raises `ValueError`. -/
def npArrayTruth (bs : List Bool) : Except String Bool :=
  match bs with
  | [b] => Except.ok b
  | _ => Except.error "ValueError: The truth value of an array with more than one element is ambiguous. Use a.any() or a.all()"

/-- The scalar `Theta` applied to a NumPy array input, as in the cell
`Theta(v1)`: the `if x >= 0:` test forces array truthiness, which raises
for arrays of more than one element; the error is not caught anywhere in
the notebook, so it surfaces as the cell's outcome. -/
def ThetaScalarOnArray (v : List ℚ) : Except String ℤ :=
  match npArrayTruth (v.map (fun x => decide (x ≥ 0))) with
  | Except.ok true => Except.ok 1
  | Except.ok false => Except.ok 0
  | Except.error e => Except.error e

/-- The array `v1 = np.array([-3,-2,-1,0,1,2,3])` from the notebook. -/
def v1 : List ℚ := [-3, -2, -1, 0, 1, 2, 3]

/-- Identity function `my_function` from the checkpoint tutorial notebook:
`def my_function(an_object): return an_object`. -/
def my_function {α : Type} (an_object : α) : α := an_object

/-- Python str() of an int, as produced by the f-string piece `f"..."`
interpolating an integer: decimal digits, with a leading minus sign for
negative values. -/
def pythonStrOfInt (n : Int) : String :=
  if n < 0 then "-" ++ (Nat.toDigits 10 n.natAbs).asString
  else (Nat.toDigits 10 n.toNat).asString

/-- Function `another_function` from the checkpoint tutorial notebook:
`def another_function(number=0, name="No name"): return f"..."` where the
f-string interpolates `number`, then a comma and a space, then `name`. -/
def another_function (number : Int) (name : String) : String :=
  pythonStrOfInt number ++ ", " ++ name

/-- Default value of the `number` parameter of `another_function`. -/
def another_function_default_number : Int := 0

/-- Default value of the `name` parameter of `another_function`. -/
def another_function_default_name : String := "No name"

/-- Calling `another_function()` with no arguments: both defaults apply. -/
def another_function_no_args : String :=
  another_function another_function_default_number another_function_default_name

/-- Calling `another_function(n)` with one positional argument: the `name`
default applies, as in the notebook call `another_function(12)`. -/
def another_function_number_only (number : Int) : String :=
  another_function number another_function_default_name

/-- A keyword call written with `name` first then `number`, as in the
notebook call with keywords in swapped order: Python binds each keyword
argument to the parameter of the same name, regardless of call order. -/
def another_function_kw_name_number (name : String) (number : Int) : String :=
  another_function number name

/-- A keyword call written with `number` first then `name`: keyword
binding is by parameter name, so this is the same application. -/
def another_function_kw_number_name (number : Int) (name : String) : String :=
  another_function number name

/-- Modelled from the spec: the documented upstream tutorial demo of
default parameter values that the spec says `another_function` reproduces
verbatim — a function of a number defaulting to 0 and a name defaulting
to "No name", returning the number's decimal rendering followed by a
comma, a space, and the name. -/
def documentedDefaultsDemo (number : Int) (name : String) : String :=
  toString number ++ ", " ++ name

/-! ### Effect model of the notebook cells

Each code cell of the two notebooks is transcribed as the list of its
statement effect kinds, in source order.  The granularity is one entry
per top-level effect: a variable binding (including in-place mutations
of the object bound to a variable, and loop variables, which leak into
the module namespace in Python), a displayed expression, a print call,
a function or class definition, a file save, a read-only shell file
probe, or a help query.  A loop body contributes the effect kinds of its
statements once (repetition counts are not modelled).  The inductive
type also offers the effect kinds the spec rules out — class
declarations, try/except error handlers, thread or async-task creation —
so that their absence from the transcription is a statement about the
source, not about the type. -/

/-- One top-level statement effect in a notebook code cell. -/
inductive Stmt where
  | importLib (modName : String)
  | assign (varName : String)
  | exprDisplay
  | printCall
  | defFun (fnName : String)
  | defNewType (tyName : String)
  | tryExceptBlock
  | saveFile (path : String)
  | shellFileInspect (path : String)
  | helpQuery
  | spawnThread
  | asyncTask
deriving DecidableEq

/-- A code cell is its list of statement effects. -/
abbrev Cell := List Stmt

/-- Files written to persistent storage by a statement. -/
def stmtFilesWritten : Stmt → List String
  | .saveFile p => [p]
  | _ => []

/-- Files read from persistent storage by a statement. -/
def stmtFilesRead : Stmt → List String
  | .shellFileInspect p => [p]
  | _ => []

/-- Top-level session variables bound by a statement (a function
definition binds its name like any assignment in Python). -/
def stmtVarsAssigned : Stmt → List String
  | .assign v => [v]
  | .defFun f => [f]
  | _ => []

/-- Whether a statement declares a new user-defined type (a Python
class statement). -/
def stmtDeclaresType : Stmt → Bool
  | .defNewType _ => true
  | _ => false

/-- Whether a statement catches or handles errors (a try/except block). -/
def stmtIsErrorHandler : Stmt → Bool
  | .tryExceptBlock => true
  | _ => false

/-- Whether a statement creates a thread or asynchronous task. -/
def stmtIsConcurrent : Stmt → Bool
  | .spawnThread => true
  | .asyncTask => true
  | _ => false

/-- Transcription of the code cells of `introduction-to-numpy.ipynb`, in
notebook order, one list entry per code cell. -/
def introNumpyCells : List Cell := [
  -- imports: numpy, matplotlib.pyplot
  [Stmt.importLib "numpy", Stmt.importLib "matplotlib.pyplot"],
  -- np.__version__
  [Stmt.exprDisplay],
  -- np.ndarray?
  [Stmt.helpQuery],
  -- help(np.mean)
  [Stmt.helpQuery],
  -- lst = ...; v = np.array(lst, ...); v
  [Stmt.assign "lst", Stmt.assign "v", Stmt.exprDisplay],
  -- v.dtype
  [Stmt.exprDisplay],
  -- list_of_lists = ...; M = np.array(...); M
  [Stmt.assign "list_of_lists", Stmt.assign "M", Stmt.exprDisplay],
  -- row_vec = v[np.newaxis, :]; row_vec
  [Stmt.assign "row_vec", Stmt.exprDisplay],
  -- col_vec = v[:, np.newaxis]; col_vec
  [Stmt.assign "col_vec", Stmt.exprDisplay],
  -- np.linspace(0, 10)
  [Stmt.exprDisplay],
  -- np.logspace(0, 5, 10, ...)
  [Stmt.exprDisplay],
  -- gaussian = np.random.randn(...); print(gaussian); gaussian = reshape; gaussian
  [Stmt.assign "gaussian", Stmt.printCall, Stmt.assign "gaussian", Stmt.exprDisplay],
  -- zero_arr = np.zeros(...); zero_arr
  [Stmt.assign "zero_arr", Stmt.exprDisplay],
  -- ones_arr = np.ones(...); ones_arr
  [Stmt.assign "ones_arr", Stmt.exprDisplay],
  -- iden = np.identity(...); print(iden); iden4 = np.eye(...); iden4
  [Stmt.assign "iden", Stmt.printCall, Stmt.assign "iden4", Stmt.exprDisplay],
  -- diag = np.diag(...); diag
  [Stmt.assign "diag", Stmt.exprDisplay],
  -- np.sctypes
  [Stmt.exprDisplay],
  -- gaussian = np.random.randn(...).reshape(...)
  [Stmt.assign "gaussian"],
  -- ndim/shape/size/itemsize/nbytes, each displayed then printed
  [Stmt.exprDisplay, Stmt.printCall, Stmt.exprDisplay, Stmt.printCall, Stmt.exprDisplay,
   Stmt.printCall, Stmt.exprDisplay, Stmt.printCall, Stmt.exprDisplay, Stmt.printCall],
  -- num_samples = 10; integers = np.random.randint(...); integers
  [Stmt.assign "num_samples", Stmt.assign "integers", Stmt.exprDisplay],
  -- integers[2]
  [Stmt.exprDisplay],
  -- twoD_arr = np.arange(1, 46).reshape(3, -1); twoD_arr
  [Stmt.assign "twoD_arr", Stmt.exprDisplay],
  -- twoD_arr[-1, -1]
  [Stmt.exprDisplay],
  -- twoD_arr[-1]
  [Stmt.exprDisplay],
  -- docstring-style string literal expression; gaussian
  [Stmt.exprDisplay, Stmt.exprDisplay],
  -- gaussian[-1]
  [Stmt.exprDisplay],
  -- gaussian[-1, 0]
  [Stmt.exprDisplay],
  -- gaussian[-1, -1]
  [Stmt.exprDisplay],
  -- idx = (-1, -1, -1); gaussian[idx]
  [Stmt.assign "idx", Stmt.exprDisplay],
  -- print(integers); integers[4] = 99.21; integers
  [Stmt.printCall, Stmt.assign "integers", Stmt.exprDisplay],
  -- integers
  [Stmt.exprDisplay],
  -- integers[-5:]
  [Stmt.exprDisplay],
  -- integers[::2]
  [Stmt.exprDisplay],
  -- integers[::-1]
  [Stmt.exprDisplay],
  -- integers[3::]
  [Stmt.exprDisplay],
  -- integers[3::-1]
  [Stmt.exprDisplay],
  -- integers
  [Stmt.exprDisplay],
  -- integers[-2:] = [-23, -46]; integers
  [Stmt.assign "integers", Stmt.exprDisplay],
  -- twenty = (np.arange(20)).reshape(4, 5); twenty
  [Stmt.assign "twenty", Stmt.exprDisplay],
  -- twenty[:2, :3]
  [Stmt.exprDisplay],
  -- twenty[::3, ::4]
  [Stmt.exprDisplay],
  -- twenty[::-1, ...]
  [Stmt.exprDisplay],
  -- twenty[..., ::-1]
  [Stmt.exprDisplay],
  -- twenty[::-1, ::-1]
  [Stmt.exprDisplay],
  -- np.flip(...); np.flipud(np.fliplr(...)); np.fliplr(np.flipud(...))
  [Stmt.exprDisplay, Stmt.exprDisplay, Stmt.exprDisplay],
  -- twenty
  [Stmt.exprDisplay],
  -- row_indices = [1, 2, 3]; twenty[row_indices]
  [Stmt.assign "row_indices", Stmt.exprDisplay],
  -- col_indices = [1, 2, -1]; twenty[row_indices, col_indices]
  [Stmt.assign "col_indices", Stmt.exprDisplay],
  -- integers
  [Stmt.exprDisplay],
  -- row_mask = np.array([...]); integers[row_mask]
  [Stmt.assign "row_mask", Stmt.exprDisplay],
  -- row_mask = np.array([...], dtype=np.bool); integers[row_mask]
  [Stmt.assign "row_mask", Stmt.exprDisplay],
  -- range_arr = np.arange(0, 10, 0.5); range_arr
  [Stmt.assign "range_arr", Stmt.exprDisplay],
  -- mask = (range_arr > 5) * (range_arr < 7.5); mask
  [Stmt.assign "mask", Stmt.exprDisplay],
  -- range_arr[mask]
  [Stmt.exprDisplay],
  -- mask = (5 < range_arr) & (range_arr < 7.5); range_arr[mask]
  [Stmt.assign "mask", Stmt.exprDisplay],
  -- a = np.arange(10); a
  [Stmt.assign "a", Stmt.exprDisplay],
  -- s1 = a[1::3]; s1
  [Stmt.assign "s1", Stmt.exprDisplay],
  -- a
  [Stmt.exprDisplay],
  -- a[7] = 77; s1
  [Stmt.assign "a", Stmt.exprDisplay],
  -- b = np.arange(10, dtype='int16'); b
  [Stmt.assign "b", Stmt.exprDisplay],
  -- b32 = b.view(np.int32); b32 += 1 (mutates the shared buffer); b
  [Stmt.assign "b32", Stmt.assign "b32", Stmt.exprDisplay],
  -- b8 = b.view(np.int8); b8
  [Stmt.assign "b8", Stmt.exprDisplay],
  -- arr = np.arange(5 * 7).reshape(5, 7); arr
  [Stmt.assign "arr", Stmt.exprDisplay],
  -- np.random.shuffle(arr) (in-place); arr
  [Stmt.assign "arr", Stmt.exprDisplay],
  -- arr = np.arange(4, 2 * 11).reshape(2, 9); arr
  [Stmt.assign "arr", Stmt.exprDisplay],
  -- amax = np.argmax(...); idx = np.unravel_index(...); idx
  [Stmt.assign "amax", Stmt.assign "idx", Stmt.exprDisplay],
  -- arr[idx]
  [Stmt.exprDisplay],
  -- np.max(arr)
  [Stmt.exprDisplay],
  -- arr
  [Stmt.exprDisplay],
  -- avg = np.mean(...); avg
  [Stmt.assign "avg", Stmt.exprDisplay],
  -- idxs = np.where(arr > 10); idxs
  [Stmt.assign "idxs", Stmt.exprDisplay],
  -- greater10 = arr[idxs]; greater10
  [Stmt.assign "greater10", Stmt.exprDisplay],
  -- greater10[-1] = 0; arr
  [Stmt.assign "greater10", Stmt.exprDisplay],
  -- random_arr = np.random.randn(2, 3, 4); np.save(...); shell probe
  [Stmt.assign "random_arr", Stmt.saveFile "./random-array.npy",
   Stmt.shellFileInspect "persist/random-array.npy"],
  -- vec = np.arange(0, 5); vec
  [Stmt.assign "vec", Stmt.exprDisplay],
  -- vec * 2
  [Stmt.exprDisplay],
  -- vec + 2
  [Stmt.exprDisplay],
  -- arr = np.arange(4 * 5).reshape(4, 5); arr
  [Stmt.assign "arr", Stmt.exprDisplay],
  -- np.matmul(arr, (arr.T))
  [Stmt.exprDisplay],
  -- print(vec.shape, arr.shape); vec * arr
  [Stmt.printCall, Stmt.exprDisplay],
  -- vec[:, None] * arr
  [Stmt.exprDisplay],
  -- vec[:4, None] * arr
  [Stmt.exprDisplay],
  -- print(arr.T.shape, arr.shape); np.dot(arr.T, arr)
  [Stmt.printCall, Stmt.exprDisplay],
  -- print(...); np.dot(arr, vec)
  [Stmt.printCall, Stmt.exprDisplay],
  -- col_vec = vec[:, None]; print(...); (col_vec.T) @ (col_vec)
  [Stmt.assign "col_vec", Stmt.printCall, Stmt.exprDisplay],
  -- a = np.array([[1, 2], [3, 4]]); a
  [Stmt.assign "a", Stmt.exprDisplay],
  -- np.repeat(a, 3)
  [Stmt.exprDisplay],
  -- np.tile(a, 3)
  [Stmt.exprDisplay],
  -- b = np.array([[5, 6]]); b
  [Stmt.assign "b", Stmt.exprDisplay],
  -- np.concatenate((a, b), axis=0)
  [Stmt.exprDisplay],
  -- np.concatenate((a, b.T), axis=1)
  [Stmt.exprDisplay],
  -- np.vstack((a,b))
  [Stmt.exprDisplay],
  -- np.hstack((a,b.T))
  [Stmt.exprDisplay],
  -- A = np.array([[1, 2], [3, 4]]); A
  [Stmt.assign "A", Stmt.exprDisplay],
  -- B = A; B
  [Stmt.assign "B", Stmt.exprDisplay],
  -- B[0,0] = 10; A
  [Stmt.assign "B", Stmt.exprDisplay],
  -- B = np.copy(A)
  [Stmt.assign "B"],
  -- B[0,0] = -5; A
  [Stmt.assign "B", Stmt.exprDisplay],
  -- def Theta(x): scalar Heaviside
  [Stmt.defFun "Theta"],
  -- v1 = np.array([-3,-2,-1,0,1,2,3]); Theta(v1) (raises ValueError, uncaught)
  [Stmt.assign "v1", Stmt.exprDisplay],
  -- Theta_vec = np.vectorize(Theta)
  [Stmt.assign "Theta_vec"],
  -- Theta_vec(v1)
  [Stmt.exprDisplay],
  -- def Theta(x): vector-aware Heaviside
  [Stmt.defFun "Theta"],
  -- Theta(v1)
  [Stmt.exprDisplay],
  -- Theta(-1.2), Theta(2.6)
  [Stmt.exprDisplay],
  -- trailing empty cell
  []]

/-- Transcription of the code cells of
`.ipynb_checkpoints/initial-python-tutorial-checkpoint.ipynb`, in
notebook order, one list entry per code cell. -/
def initialPythonCells : List Cell := [
  -- x = 5; print(x); my_string = "..."; print; my_string = 3908274213408; print
  [Stmt.assign "x", Stmt.printCall, Stmt.assign "my_string", Stmt.printCall,
   Stmt.assign "my_string", Stmt.printCall],
  -- integer_var, float_var, complex_var assignments, three prints
  [Stmt.assign "integer_var", Stmt.assign "float_var", Stmt.assign "complex_var",
   Stmt.printCall, Stmt.printCall, Stmt.printCall],
  -- two string prints
  [Stmt.printCall, Stmt.printCall],
  -- statement = "..."; lower/upper/replace prints
  [Stmt.assign "statement", Stmt.printCall, Stmt.printCall, Stmt.printCall],
  -- for number in range(6): print(...)
  [Stmt.assign "number", Stmt.printCall],
  -- my_list = [...]; print(my_list); print([type(item) ...])
  [Stmt.assign "my_list", Stmt.printCall, Stmt.printCall],
  -- number_list mutations via append/remove/del/pop/reverse/sort and prints
  [Stmt.assign "number_list", Stmt.assign "number_list", Stmt.printCall,
   Stmt.assign "number_list", Stmt.printCall, Stmt.assign "number_list", Stmt.printCall,
   Stmt.assign "number", Stmt.printCall, Stmt.assign "number_list", Stmt.printCall,
   Stmt.assign "number_list", Stmt.printCall, Stmt.assign "minimum", Stmt.assign "maximum",
   Stmt.printCall],
  -- my_2d_array = [...]; print(my_2d_array)
  [Stmt.assign "my_2d_array", Stmt.printCall],
  -- my_age_dictionary = ...; three prints
  [Stmt.assign "my_age_dictionary", Stmt.printCall, Stmt.printCall, Stmt.printCall],
  -- my_dictionary = ...; two key insertions; two prints
  [Stmt.assign "my_dictionary", Stmt.assign "my_dictionary", Stmt.assign "my_dictionary",
   Stmt.printCall, Stmt.printCall],
  -- my_2d_array = [...]; nested for row/value loop printing
  [Stmt.assign "my_2d_array", Stmt.assign "row", Stmt.assign "value", Stmt.printCall],
  -- two index-based for loops printing
  [Stmt.assign "i", Stmt.printCall, Stmt.assign "i", Stmt.printCall],
  -- names = [...]; two for/else searches printing
  [Stmt.assign "names", Stmt.assign "name", Stmt.printCall, Stmt.assign "name", Stmt.printCall],
  -- some_int = 0; while loop printing and incrementing
  [Stmt.assign "some_int", Stmt.printCall, Stmt.assign "some_int"],
  -- some_object = 0; def my_function; print(my_function(some_object))
  [Stmt.assign "some_object", Stmt.defFun "my_function", Stmt.printCall],
  -- def another_function; two prints of calls
  [Stmt.defFun "another_function", Stmt.printCall, Stmt.printCall],
  -- trailing empty cell
  []]

/-- All code cells of the repository, in notebook order. -/
def repoCells : List Cell := introNumpyCells ++ initialPythonCells

/-- Files written to persistent storage by a cell. -/
def cellFilesWritten (c : Cell) : List String := c.flatMap stmtFilesWritten

/-- Files read from persistent storage by a cell. -/
def cellFilesRead (c : Cell) : List String := c.flatMap stmtFilesRead

/-- All files the repository's cells ever write. -/
def repoFilesWritten : List String := repoCells.flatMap cellFilesWritten

/-- All files the repository's cells ever read. -/
def repoFilesRead : List String := repoCells.flatMap cellFilesRead

/-- Sequential execution of one cell over the session namespace: the
environment is the list of bound top-level variable names, and a cell
appends the names it binds. -/
def runCell (env : List String) (c : Cell) : List String :=
  env ++ c.flatMap stmtVarsAssigned

/-- Sequential, synchronous execution of a whole notebook: a left fold of
the cells over the (initially empty) session namespace. -/
def runNotebook (nb : List Cell) : List String :=
  nb.foldl runCell []

/-! ### Theorems -/

/-- Helper: the f-string rendering of a Python int agrees with Lean's
`toString` on integers. -/
theorem pythonStrOfInt_eq_toString (n : Int) : pythonStrOfInt n = toString n := by
  cases n with
  | ofNat m =>
    have h : ¬ ((Int.ofNat m) < 0) := by simp [Int.not_lt]
    rw [pythonStrOfInt, if_neg h]
    rfl
  | negSucc m =>
    have h : Int.negSucc m < 0 := Int.negSucc_lt_zero m
    rw [pythonStrOfInt, if_pos h]
    rfl

/-- C1: every function the repository defines reproduces the documented
upstream behavior: the scalar Theta, the vector-aware Theta (on scalars
and elementwise on vectors), and the vectorized Theta are all
behaviorally identical to the documented Heaviside step function; the
checkpoint tutorial's identity function is the identity; and
another_function (on every input, and with its documented defaults) is
behaviorally identical to the documented defaults demo; no further
algorithm is implemented by the repository's own code. -/
theorem theta_reproduces_documented_upstream :
    (∀ x : ℚ, ScalarImpl.Theta x = documentedHeaviside x) ∧
    (∀ x : ℚ, VectorImpl.Theta x = documentedHeaviside x) ∧
    (∀ v : List ℚ, VectorImpl.ThetaOnList v = v.map documentedHeaviside) ∧
    (∀ v : List ℚ, Theta_vec v = v.map documentedHeaviside) ∧
    (∀ (α : Type) (o : α), my_function o = o) ∧
    (∀ (n : Int) (s : String), another_function n s = documentedDefaultsDemo n s) ∧
    another_function_no_args = documentedDefaultsDemo 0 "No name" := by
  have hscalar : ∀ x : ℚ, ScalarImpl.Theta x = documentedHeaviside x :=
    fun _ => rfl
  have hvec : ∀ x : ℚ, VectorImpl.Theta x = documentedHeaviside x := by
    intro x
    by_cases h : 0 ≤ x <;>
      simp [VectorImpl.Theta, pyBoolToInt, documentedHeaviside, ge_iff_le, h]
  have hanother : ∀ (n : Int) (s : String),
      another_function n s = documentedDefaultsDemo n s := by
    intro n s
    rw [another_function, documentedDefaultsDemo, pythonStrOfInt_eq_toString]
  refine ⟨hscalar, hvec, ?_, ?_, fun _ _ => rfl, hanother, hanother 0 "No name"⟩
  · intro v
    exact List.map_congr_left (fun a _ => hvec a)
  · intro v
    exact List.map_congr_left (fun a _ => hscalar a)

/-- C2: applying the scalar Theta to the seven-element array v1 surfaces
the library's standard ValueError (ambiguous array truth value), and no
cell of either notebook contains an error handler, so the error
propagates uncaught into the notebook output. -/
theorem theta_on_array_error_uncaught :
    ThetaScalarOnArray v1 =
      Except.error "ValueError: The truth value of an array with more than one element is ambiguous. Use a.any() or a.all()" ∧
    ∀ c ∈ repoCells, ∀ s ∈ c, stmtIsErrorHandler s = false := by
  exact ⟨rfl, by decide⟩

/-- Witness for C2 at the concrete cell that assigns v1 and evaluates
Theta(v1). -/
theorem theta_on_array_error_uncaught_witness :
    stmtIsErrorHandler (Stmt.assign "v1") = false :=
  theta_on_array_error_uncaught.2 [Stmt.assign "v1", Stmt.exprDisplay]
    (by decide) (Stmt.assign "v1") (by decide)

/-- C3: the only file the repository's code ever writes to persistent
storage is "./random-array.npy", written by the single np.save
statement; no other statement of either notebook writes any file. -/
theorem single_persisted_file_write :
    repoFilesWritten = ["./random-array.npy"] ∧
    repoCells.flatMap (fun c => c.filter (fun s => !(stmtFilesWritten s).isEmpty)) =
      [Stmt.saveFile "./random-array.npy"] := by
  exact ⟨rfl, rfl⟩

/-- C4: cells exchange state only through top-level session variables:
no cell reads a file that any cell (itself included, hence in particular
any other cell) writes, so the filesystem is not an inter-cell channel
and the session namespace is the only one. -/
theorem cells_interact_only_via_session_variables :
    ∀ i j : Fin repoCells.length, i ≠ j →
      ∀ p, p ∈ cellFilesRead (repoCells.get i) →
        p ∉ cellFilesWritten (repoCells.get j) := by
  have hrAll : repoFilesRead = ["persist/random-array.npy"] := rfl
  have hwAll : repoFilesWritten = ["./random-array.npy"] := rfl
  intro i j _ p hr hw
  have hp : p = "persist/random-array.npy" := by
    have h1 : p ∈ repoFilesRead :=
      List.mem_flatMap.mpr ⟨repoCells.get i, List.get_mem _ _ _, hr⟩
    rw [hrAll] at h1
    simpa using h1
  have hq : p = "./random-array.npy" := by
    have h2 : p ∈ repoFilesWritten :=
      List.mem_flatMap.mpr ⟨repoCells.get j, List.get_mem _ _ _, hw⟩
    rw [hwAll] at h2
    simpa using h2
  rw [hp] at hq
  exact absurd hq (by decide)

/-- Witness for C4 at the np.save cell (index 73) against the import
cell (index 0). -/
theorem cells_interact_only_via_session_variables_witness :
    "persist/random-array.npy" ∉
      cellFilesWritten (repoCells.get ⟨0, by decide⟩) :=
  cells_interact_only_via_session_variables ⟨73, by decide⟩ ⟨0, by decide⟩
    (by decide) "persist/random-array.npy" (by decide)

/-- C5: no statement of either notebook declares a user-defined type (a
Python class statement): every value the cells construct is of a
standard language or library type, and no domain entity or
invariant-bearing structure is declared anywhere in the source. -/
theorem no_user_defined_types :
    ∀ c ∈ repoCells, ∀ s ∈ c, stmtDeclaresType s = false := by
  decide

/-- Witness for C5 at the cell defining the scalar Theta. -/
theorem no_user_defined_types_witness :
    stmtDeclaresType (Stmt.defFun "Theta") = false :=
  no_user_defined_types [Stmt.defFun "Theta"] (by decide)
    (Stmt.defFun "Theta") (by decide)

/-- C6: beyond the single array-file save, every statement of every cell
writes nothing to the environment: each statement either writes no file
at all or is exactly the np.save of "./random-array.npy", and the
repository's total persisted output is that single file. -/
theorem cell_effects_limited_to_session_and_single_save :
    (∀ c ∈ repoCells, ∀ s ∈ c,
        stmtFilesWritten s = [] ∨ s = Stmt.saveFile "./random-array.npy") ∧
    repoFilesWritten = ["./random-array.npy"] := by
  exact ⟨by decide, rfl⟩

/-- Witness for C6 at a display-only cell. -/
theorem cell_effects_limited_to_session_and_single_save_witness :
    stmtFilesWritten Stmt.exprDisplay = [] ∨
      Stmt.exprDisplay = Stmt.saveFile "./random-array.npy" :=
  cell_effects_limited_to_session_and_single_save.1 [Stmt.exprDisplay]
    (by decide) Stmt.exprDisplay (by decide)

/-- C7: no statement of either notebook creates a thread or an
asynchronous task: execution is the purely sequential fold runNotebook
over the single in-memory session namespace. -/
theorem execution_sequential_no_concurrency :
    (∀ c ∈ repoCells, ∀ s ∈ c, stmtIsConcurrent s = false) ∧
    runNotebook repoCells = repoCells.foldl runCell [] := by
  exact ⟨by decide, rfl⟩

/-- Witness for C7 at the import cell. -/
theorem execution_sequential_no_concurrency_witness :
    stmtIsConcurrent (Stmt.importLib "numpy") = false :=
  execution_sequential_no_concurrency.1
    [Stmt.importLib "numpy", Stmt.importLib "matplotlib.pyplot"] (by decide)
    (Stmt.importLib "numpy") (by decide)

/-- C8: the scalar Theta returns 1 on every nonnegative input and 0 on
every negative input. -/
theorem scalar_theta_step_values (x : ℚ) :
    (0 ≤ x → ScalarImpl.Theta x = 1) ∧ (x < 0 → ScalarImpl.Theta x = 0) := by
  constructor
  · intro h
    simp [ScalarImpl.Theta, ge_iff_le, h]
  · intro h
    simp [ScalarImpl.Theta, ge_iff_le, not_le.mpr h]

/-- Witness for C8 at the inputs 0 and -1. -/
theorem scalar_theta_step_values_witness :
    ScalarImpl.Theta 0 = 1 ∧ ScalarImpl.Theta (-1) = 0 :=
  ⟨(scalar_theta_step_values 0).1 (by decide),
   (scalar_theta_step_values (-1)).2 (by decide)⟩

/-- C9: the vector-aware Theta agrees with the scalar Theta on every
scalar input, and on every vector it equals Theta_vec, the np.vectorize
of the scalar Theta applied elementwise. -/
theorem vector_theta_refines_scalar_and_vectorize :
    (∀ x : ℚ, VectorImpl.Theta x = ScalarImpl.Theta x) ∧
    (∀ v : List ℚ, VectorImpl.ThetaOnList v = Theta_vec v) := by
  have hpt : ∀ x : ℚ, VectorImpl.Theta x = ScalarImpl.Theta x := by
    intro x
    by_cases h : 0 ≤ x <;>
      simp [VectorImpl.Theta, ScalarImpl.Theta, pyBoolToInt, ge_iff_le, h]
  exact ⟨hpt, fun v => List.map_congr_left (fun a _ => hpt a)⟩

/-- C10: another_function renders its number argument followed by a
comma, a space, and its name argument; the defaults are number 0 and
name "No name" (so the bare call yields "0, No name" and the notebook's
one-positional-argument call yields "12, No name"); and a call binding
both parameters by keyword, in either keyword order, equals the
positional call (in particular the notebook's swapped-keyword call
yields "16, Yatri"). -/
theorem another_function_formatting_defaults_keywords :
    (∀ (n : Int) (s : String), another_function n s = toString n ++ ", " ++ s) ∧
    another_function_no_args = "0, No name" ∧
    another_function_number_only 12 = "12, No name" ∧
    (∀ (n : Int) (s : String),
        another_function_kw_name_number s n = another_function n s ∧
        another_function_kw_number_name n s = another_function n s) ∧
    another_function_kw_name_number "Yatri" 16 = "16, Yatri" := by
  refine ⟨?_, rfl, rfl, fun _ _ => ⟨rfl, rfl⟩, rfl⟩
  intro n s
  rw [another_function, pythonStrOfInt_eq_toString]

end PyBasicsWebinar
